import Mathlib

/-!
Verification of the JSON persistence core of the announcement bot
(`bot.py`): document store (`load_json` / `save_json`), atomic mutator
(`atomic_read_modify_write`), the three domain managers
(`SubscriberManager`, `AnnouncementManager`, `ReadReceiptManager`) and the
retention sweeper (`cleanup_old_announcements`).

Modelling conventions:
* JSON values are the inductive `JVal`.  Python floats are carried as their
  IEEE-754 bit pattern (an opaque `Nat`); float arithmetic and cross-type
  numeric equality with floats are outside the model.
* Python dicts are insertion-ordered association lists `Obj`; documents
  obtained from `json.load` have pairwise distinct keys, which theorems
  assume where it matters.
* The filesystem is a map from paths to `FileContent`: either a document
  that parses to a `JVal` or `malformed` (text `json.load` raises on).
* Each operation returns an `Eff`: its return value, the resulting
  filesystem, and the list of storage I/O events (reads / writes of
  document files) it performed, in order.
* Wall-clock inputs (`datetime.now()`) and ISO-8601 timestamp parsing
  (`datetime.fromisoformat`) are parameters: a current time / timestamp
  string, and a partial parse function `String → Option Int` (absolute
  time in seconds; `none` models the `ValueError` raised on an unparsable
  string).
-/

namespace Bot

/-- JSON values as produced by Python's `json.load`.  `jfloat` carries the
IEEE-754 bit pattern of a Python float. -/
inductive JVal where
  | jnull
  | jbool (b : Bool)
  | jint (n : Int)
  | jfloat (bits : Nat)
  | jstr (s : String)
  | jarr (elems : List JVal)
  | jobj (entries : List (String × JVal))

/-- Python dict with string keys, as an insertion-ordered association list. -/
abbrev Obj := List (String × JVal)

/-- The exact numeric value of a Python value that is an `int` in Python's
type system.  `bool` is a subclass of `int` (`True == 1`, `False == 0`). -/
def numVal : JVal → Option Int
  | .jint n => some n
  | .jbool b => some (if b then 1 else 0)
  | _ => none

/-- Python `==` for the comparisons the persistence core performs: at least
one operand is always a scalar (an identifier or a string).  Ints and bools
compare numerically; container-to-scalar and mismatched-scalar comparisons
are `False`; container-to-container equality never occurs in the modelled
code, and floats are compared by bit pattern. -/
def pyEq (a b : JVal) : Bool :=
  match numVal a, numVal b with
  | some x, some y => x == y
  | _, _ =>
    match a, b with
    | .jnull, .jnull => true
    | .jstr s, .jstr t => s == t
    | .jfloat x, .jfloat y => x == y
    | _, _ => false

/-- Python `x in xs` for a list `xs`. -/
def listContains (xs : List JVal) (x : JVal) : Bool :=
  xs.any (fun y => pyEq x y)

/-- Python truthiness (`bool(v)`). -/
def pyTruthy : JVal → Bool
  | .jnull => false
  | .jbool b => b
  | .jint n => n != 0
  | .jfloat bits => bits != 0 && bits != 9223372036854775808
  | .jstr s => s != ""
  | .jarr xs => !xs.isEmpty
  | .jobj d => !d.isEmpty

/-- `isinstance(v, (dict, list))`: the shape check both store primitives use. -/
def isContainer : JVal → Bool
  | .jarr _ => true
  | .jobj _ => true
  | _ => false

/-- `isinstance(v, dict)`. -/
def isObj : JVal → Bool
  | .jobj _ => true
  | _ => false

/-- `isinstance(user_id, int) and user_id > 0` — the identifier check of
`add_subscriber` and `mark_as_read`.  Python's `bool` passes
`isinstance(·, int)` (`True > 0`, `False <= 0`). -/
def isValidUserId : JVal → Bool
  | .jint n => decide (0 < n)
  | .jbool b => b
  | _ => false

/-- `d.get(k)` on a Python dict (documents parsed from JSON have pairwise
distinct keys, so taking the first binding agrees with Python). -/
def objGet (d : Obj) (k : String) : Option JVal :=
  match d.find? (fun kv => kv.1 == k) with
  | some kv => some kv.2
  | none => none

/-- `d.get(k, v)`. -/
def objGetD (d : Obj) (k : String) (v : JVal) : JVal :=
  (objGet d k).getD v

/-- `k in d` on a Python dict. -/
def objMem (d : Obj) (k : String) : Bool :=
  (objGet d k).isSome

/-- `d[k] = v`: replace in place if the key is present, else append
(Python dicts preserve insertion order). -/
def objSet (d : Obj) (k : String) (v : JVal) : Obj :=
  if objMem d k then d.map (fun kv => if kv.1 == k then (k, v) else kv)
  else d ++ [(k, v)]

/-- `del d[k]`. -/
def objDel (d : Obj) (k : String) : Obj :=
  d.filter (fun kv => kv.1 != k)

/-- Content of one file on disk: JSON text parsing to a value, or text
`json.load` raises `JSONDecodeError` on. -/
inductive FileContent where
  | malformed
  | doc (v : JVal)

/-- The filesystem: `none` means the file does not exist. -/
abbrev FS := String → Option FileContent

/-- One storage access to a document file. -/
inductive IOEvent where
  | readEv (path : String)
  | writeEv (path : String)
deriving DecidableEq

/-- `_write_file_sync` / `json.dump`: replace the file's content. -/
def fsWrite (fs : FS) (path : String) (v : JVal) : FS :=
  fun q => if q = path then some (.doc v) else fs q

/-- Result of an operation: return value, resulting filesystem, and the
storage I/O it performed, in order. -/
structure Eff (α : Type) where
  ret : α
  fs : FS
  trace : List IOEvent

-- ========== CONFIGURATION ==========

def SUBSCRIBERS_FILE : String := "subscribers.json"
def ANNOUNCEMENTS_FILE : String := "announcements.json"
def READ_RECEIPTS_FILE : String := "read_receipts.json"
def ANNOUNCEMENT_RETENTION_DAYS : Int := 10

/-- Python's substring test `pat in s`. -/
def strContains (s pat : String) : Bool :=
  s.toList.tails.any (fun t => pat.toList.isPrefixOf t)

/-- The fallback document `load_json` and `atomic_read_modify_write` use
when no default applies: `[] if 'subscribers' in file_path else {}`. -/
def pathDefault (path : String) : JVal :=
  if strContains path "subscribers" then .jarr [] else .jobj []

-- ========== JSON HANDLING FUNCTIONS ==========

/-- `load_json(file_path, default)`.  Reads the file; a missing file,
malformed JSON, or a parsed value that is not a dict or list yields
`default` (or the path-based fallback when `default is None`).  Never
writes. -/
def load_json (fs : FS) (path : String) (default : Option JVal) : Eff JVal :=
  let dflt := match default with
    | some d => d
    | none => pathDefault path
  match fs path with
  | none => ⟨dflt, fs, [.readEv path]⟩
  | some .malformed => ⟨dflt, fs, [.readEv path]⟩
  | some (.doc v) => ⟨if isContainer v then v else dflt, fs, [.readEv path]⟩

/-- `save_json(file_path, data)`: rejects non-container data without
writing, otherwise writes the document. -/
def save_json (fs : FS) (path : String) (data : JVal) : Eff Bool :=
  if isContainer data then ⟨true, fsWrite fs path data, [.writeEv path]⟩
  else ⟨false, fs, []⟩

/-- The read-validate-write tail of `atomic_read_modify_write`, after the
current document has been obtained. -/
def rmwApply (fs : FS) (path : String) (cb : JVal → JVal) (current : JVal) :
    Eff (Bool × Option JVal) :=
  let modified := cb current
  if isContainer modified then
    ⟨(true, some modified), fsWrite fs path modified, [.readEv path, .writeEv path]⟩
  else ⟨(false, none), fs, [.readEv path]⟩

/-- `atomic_read_modify_write(file_path, modify_callback)`.  Reads the
current document directly (a missing file falls back to the path-based
default; malformed JSON raises, caught as a failure of this cycle — the
callback is not invoked), applies the callback, validates the result's
shape, and writes it. -/
def atomic_read_modify_write (fs : FS) (path : String) (cb : JVal → JVal) :
    Eff (Bool × Option JVal) :=
  match fs path with
  | some .malformed => ⟨(false, none), fs, [.readEv path]⟩
  | some (.doc v) => rmwApply fs path cb v
  | none => rmwApply fs path cb (pathDefault path)

-- ========== ANNOUNCEMENT CLEANUP ==========

/-- `datetime.fromisoformat(ann_data.get('timestamp', ''))` under the
parse parameter: a non-string raises `TypeError`, an unparsable string
raises `ValueError`; both are the caught-and-delete case, modelled as
`none`. -/
def parseTsVal (parseTs : String → Option Int) : JVal → Option Int
  | .jstr s => parseTs s
  | _ => none

/-- The entries of a top-level document Python iterates with `.items()`.
`cleanup_old_announcements` reaches `.items()` only on a truthy document;
the claims' theorems assume the stored document is a mapping, the only
shape `.items()` accepts. -/
def asObj : JVal → Obj
  | .jobj d => d
  | _ => []

/-- One mapping-shaped announcement record is marked for deletion when its
timestamp is unparsable or strictly older than `cutoff_date`
(`datetime.fromisoformat` raising `ValueError`/`TypeError` is caught and
treated as expired).  A record that is not a mapping never reaches this
check: `ann_data.get` raises `AttributeError` first, which the inner
handler does not catch — see the abort guard in
`cleanup_old_announcements`. -/
def markedForDeletion (parseTs : String → Option Int) (cutoff : Int)
    (d : Obj) : Bool :=
  match parseTsVal parseTs (objGetD d "timestamp" (.jstr "")) with
  | some t => decide (t < cutoff)
  | none => true

/-- The deletion loop of `cleanup_old_announcements`: for each marked id,
delete it from the announcements (counting it) and from the receipts. -/
def deleteMarked (st : Obj × Obj × Nat) (toDelete : List String) : Obj × Obj × Nat :=
  toDelete.foldl
    (fun st ann_id =>
      let (anns, receipts, count) := st
      let (anns, count) :=
        if objMem anns ann_id then (objDel anns ann_id, count + 1) else (anns, count)
      let receipts := if objMem receipts ann_id then objDel receipts ann_id else receipts
      (anns, receipts, count))
    st

/-- `cleanup_old_announcements()` (the retention sweeper).  `now` is the
current time in seconds; the cutoff is `now` minus the 10-day retention
window (86400 seconds per day).  When any stored record is not a mapping,
`ann_data.get('timestamp', '')` raises `AttributeError` in the marking
loop; the inner `except (ValueError, TypeError)` does not catch it, the
outer `except Exception` does, and the sweep returns 0 having written
nothing — the abort guard below, taken before any deletion since the
marking loop runs to completion before the deletion loop starts. -/
def cleanup_old_announcements (parseTs : String → Option Int) (now : Int)
    (fs : FS) : Eff Nat :=
  let e1 := load_json fs ANNOUNCEMENTS_FILE (some (.jobj []))
  let e2 := load_json fs READ_RECEIPTS_FILE (some (.jobj []))
  let tr := e1.trace ++ e2.trace
  if !pyTruthy e1.ret then ⟨0, fs, tr⟩
  else
    let announcements := asObj e1.ret
    let receipts := asObj e2.ret
    if announcements.any (fun kv => !isObj kv.2) then ⟨0, fs, tr⟩
    else
      let cutoff := now - ANNOUNCEMENT_RETENTION_DAYS * 86400
      let toDelete :=
        (announcements.filter
          (fun kv => markedForDeletion parseTs cutoff (asObj kv.2))).map Prod.fst
      let (anns2, receipts2, deleted) := deleteMarked (announcements, receipts, 0) toDelete
      if deleted > 0 then
        let s1 := save_json fs ANNOUNCEMENTS_FILE (.jobj anns2)
        let s2 := save_json s1.fs READ_RECEIPTS_FILE (.jobj receipts2)
        ⟨deleted, s2.fs, tr ++ s1.trace ++ s2.trace⟩
      else ⟨deleted, fs, tr⟩

-- ========== DATA MODELS ==========

/-- The `modify_subscribers` callback of `SubscriberManager.add_subscriber`:
coerce a non-list to `[]`, then append the id unless already present. -/
def modify_subscribers_add (user_id : JVal) (current : JVal) : JVal :=
  let cur := match current with
    | .jarr xs => xs
    | _ => []
  if listContains cur user_id then .jarr cur else .jarr (cur ++ [user_id])

/-- `SubscriberManager.add_subscriber(user_id)`: reject invalid identifiers
before any storage access, else run the atomic cycle. -/
def add_subscriber (fs : FS) (user_id : JVal) : Eff Bool :=
  if !isValidUserId user_id then ⟨false, fs, []⟩
  else
    let r := atomic_read_modify_write fs SUBSCRIBERS_FILE (modify_subscribers_add user_id)
    ⟨r.ret.1, r.fs, r.trace⟩

/-- `SubscriberManager.get_all_subscribers()`: load and filter to valid
positive integer ids. -/
def get_all_subscribers (fs : FS) : Eff (List JVal) :=
  let e := load_json fs SUBSCRIBERS_FILE (some (.jarr []))
  let xs := match e.ret with
    | .jarr xs => xs
    | _ => []
  ⟨xs.filter isValidUserId, e.fs, e.trace⟩

/-- The record `AnnouncementManager.create_announcement` builds.  Python
string slicing `s[:n]` counts code points, as `String.take` does; the
`content`/`caption` fields of real calls are strings, and slicing a
non-string (which would raise `TypeError`) is modelled as the identity. -/
def truncVal (v : JVal) (n : Nat) : JVal :=
  match v with
  | .jstr s => .jstr (s.take n)
  | other => other

/-- The `announcement_data` dict literal of `create_announcement`, with the
caption-to-content fallback applied. -/
def buildAnnouncement (announcement_id : String) (d : Obj) (nowIso : String) : Obj :=
  let content := truncVal (objGetD d "content" (.jstr "")) 500
  let caption := truncVal (objGetD d "caption" (.jstr "")) 200
  let content := if !pyTruthy content && pyTruthy caption then caption else content
  [("id", .jstr announcement_id),
   ("timestamp", .jstr nowIso),
   ("type", objGetD d "type" (.jstr "text")),
   ("sender_id", objGetD d "sender_id" .jnull),
   ("message_id", objGetD d "message_id" .jnull),
   ("content", content),
   ("caption", caption),
   ("file_id", objGetD d "file_id" .jnull),
   ("file_name", objGetD d "file_name" .jnull),
   ("media_group_id", objGetD d "media_group_id" .jnull)]

/-- `announcements[announcement_id] = announcement_data` on the loaded
document (a string-keyed assignment on a non-mapping would raise
`TypeError` in Python; the theorems only exercise mapping-shaped
documents). -/
def setAnnouncement (doc : JVal) (announcement_id : String) (ann : Obj) : JVal :=
  match doc with
  | .jobj d => .jobj (objSet d announcement_id (.jobj ann))
  | other => other

/-- `AnnouncementManager.create_announcement(announcement_id, data)`.
`nowIso` models `datetime.now().isoformat()`.  The empty-id / non-dict
check precedes any storage access; the required-fields check runs after
the announcements document has been loaded. -/
def create_announcement (fs : FS) (announcement_id : String) (data : JVal)
    (nowIso : String) : Eff Bool :=
  if announcement_id == "" || !isObj data then ⟨false, fs, []⟩
  else
    let e := load_json fs ANNOUNCEMENTS_FILE (some (.jobj []))
    let d := asObj data
    if !objMem d "sender_id" || !objMem d "message_id" then ⟨false, fs, e.trace⟩
    else
      let doc := setAnnouncement e.ret announcement_id (buildAnnouncement announcement_id d nowIso)
      let s := save_json fs ANNOUNCEMENTS_FILE doc
      ⟨s.ret, s.fs, e.trace ++ s.trace⟩

/-- The validity filter of `get_all_announcements`:
`isinstance(ann_data, dict) and ann_data.get('id') == ann_id`. -/
def validAnnouncement (ann_id : String) (ann : JVal) : Bool :=
  match ann with
  | .jobj d => pyEq (objGetD d "id" .jnull) (.jstr ann_id)
  | _ => false

/-- The sort key `x[1].get('timestamp', '')`.  A non-string key would make
Python's `sorted` comparison raise `TypeError`, so the theorems assume
string timestamps on the valid records. -/
def tsKey (kv : String × JVal) : String :=
  match objGetD (asObj kv.2) "timestamp" (.jstr "") with
  | .jstr s => s
  | _ => ""

/-- Python's `<` on strings: lexicographic comparison by Unicode code
point. -/
def pyStrLt : List Char → List Char → Bool
  | [], [] => false
  | [], _ :: _ => true
  | _ :: _, [] => false
  | a :: as, b :: bs =>
    if a.toNat < b.toNat then true
    else if b.toNat < a.toNat then false
    else pyStrLt as bs

/-- `s < t` on Python strings. -/
def tsLt (s t : String) : Bool := pyStrLt s.toList t.toList

/-- Stable insertion of one item into a list already sorted by `tsKey`
descending: skip items with strictly greater key, stop at the first item
whose key is less than or equal (so an equally-keyed earlier item stays in
front). -/
def insertTsDesc (x : String × JVal) : List (String × JVal) → List (String × JVal)
  | [] => [x]
  | y :: ys => if tsLt (tsKey x) (tsKey y) then y :: insertTsDesc x ys else x :: y :: ys

/-- `sorted(items, key=lambda x: x[1].get('timestamp', ''), reverse=True)`:
a stable descending sort. -/
def sortTsDesc : List (String × JVal) → List (String × JVal)
  | [] => []
  | x :: xs => insertTsDesc x (sortTsDesc xs)

/-- `AnnouncementManager.get_all_announcements()`: filter out records
failing the key-equals-id check, then sort by timestamp descending. -/
def get_all_announcements (fs : FS) : Eff (List (String × JVal)) :=
  let e := load_json fs ANNOUNCEMENTS_FILE (some (.jobj []))
  let valid := (asObj e.ret).filter (fun kv => validAnnouncement kv.1 kv.2)
  ⟨sortTsDesc valid, e.fs, e.trace⟩

/-- Python `announcement_id in announcements` on the loaded document: key
membership on a dict, element membership on a list. -/
def pyContainsKey (doc : JVal) (k : String) : Bool :=
  match doc with
  | .jobj d => objMem d k
  | .jarr xs => listContains xs (.jstr k)
  | _ => false

/-- `AnnouncementManager.announcement_exists(announcement_id)`: raw key
membership, no validity filtering. -/
def announcement_exists (fs : FS) (announcement_id : String) : Eff Bool :=
  let e := load_json fs ANNOUNCEMENTS_FILE (some (.jobj []))
  ⟨pyContainsKey e.ret announcement_id, e.fs, e.trace⟩

/-- Python `len` on a container. -/
def pyLen : JVal → Nat
  | .jobj d => d.length
  | .jarr xs => xs.length
  | .jstr s => s.length
  | _ => 0

/-- `AnnouncementManager.get_announcements_count()`: raw `len`, no
validity filtering. -/
def get_announcements_count (fs : FS) : Eff Nat :=
  let e := load_json fs ANNOUNCEMENTS_FILE (some (.jobj []))
  ⟨pyLen e.ret, e.fs, e.trace⟩

/-- The `modify_receipts` inner function of
`ReadReceiptManager.mark_as_read`: coerce a non-dict document to `{}`,
create the announcement's entry if missing, coerce a non-list entry to
`[]`, then either report a duplicate leaving the data unchanged or append
the user.  Returns `(data, is_duplicate)`. -/
def modify_receipts (announcement_id : String) (user_id : JVal)
    (current : JVal) : JVal × Bool :=
  let d := match current with
    | .jobj o => o
    | _ => []
  let d := if objMem d announcement_id then d else objSet d announcement_id (.jarr [])
  let d := match objGet d announcement_id with
    | some (.jarr _) => d
    | _ => objSet d announcement_id (.jarr [])
  let users := match objGet d announcement_id with
    | some (.jarr xs) => xs
    | _ => []
  if listContains users user_id then (.jobj d, true)
  else (.jobj (objSet d announcement_id (.jarr (users ++ [user_id]))), false)

/-- The `modify_callback` wrapper actually passed to the atomic cycle: it
discards the duplicate flag computed by `modify_receipts`. -/
def modify_receipts_cb (announcement_id : String) (user_id : JVal)
    (current : JVal) : JVal :=
  (modify_receipts announcement_id user_id current).1

/-- The duplicate check `mark_as_read` performs after the cycle:
`announcement_id in modified_data and user_id in
modified_data.get(announcement_id, [])` — evaluated on the document as it
stands after the mutation. -/
def dupCheckAfter (modified : JVal) (announcement_id : String) (user_id : JVal) : Bool :=
  match modified with
  | .jobj d =>
    objMem d announcement_id &&
      (match objGetD d announcement_id (.jarr []) with
       | .jarr xs => listContains xs user_id
       | _ => false)
  | _ => false

/-- `ReadReceiptManager.mark_as_read(announcement_id, user_id)`, returning
`(success, is_duplicate)`.  Invalid identifiers are rejected before any
storage access. -/
def mark_as_read (fs : FS) (announcement_id : String) (user_id : JVal) :
    Eff (Bool × Bool) :=
  if announcement_id == "" || !isValidUserId user_id then ⟨(false, false), fs, []⟩
  else
    let r := atomic_read_modify_write fs READ_RECEIPTS_FILE
      (modify_receipts_cb announcement_id user_id)
    match r.ret with
    | (false, _) => ⟨(false, false), r.fs, r.trace⟩
    | (true, modified) =>
      let md := modified.getD .jnull
      ⟨(true, dupCheckAfter md announcement_id user_id), r.fs, r.trace⟩

/-- `receipts.get(announcement_id, [])` on the loaded document (`.get` on
a non-dict would raise `AttributeError`; the theorems assume a
mapping-shaped receipts document). -/
def receiptsEntry (doc : JVal) (announcement_id : String) : JVal :=
  match doc with
  | .jobj d => objGetD d announcement_id (.jarr [])
  | _ => .jarr []

/-- `ReadReceiptManager.get_read_count(announcement_id)`: the raw length
of the stored entry, `0` when the entry is not a list. -/
def get_read_count (fs : FS) (announcement_id : String) : Eff Nat :=
  if announcement_id == "" then ⟨0, fs, []⟩
  else
    let e := load_json fs READ_RECEIPTS_FILE (some (.jobj []))
    match receiptsEntry e.ret announcement_id with
    | .jarr xs => ⟨xs.length, e.fs, e.trace⟩
    | _ => ⟨0, e.fs, e.trace⟩

/-- `ReadReceiptManager.get_read_users(announcement_id)`: the stored entry
filtered to valid positive integer ids (iterating a non-list entry raises
in Python; the theorems assume list entries where it matters). -/
def get_read_users (fs : FS) (announcement_id : String) : Eff (List JVal) :=
  if announcement_id == "" then ⟨[], fs, []⟩
  else
    let e := load_json fs READ_RECEIPTS_FILE (some (.jobj []))
    let xs := match receiptsEntry e.ret announcement_id with
      | .jarr xs => xs
      | _ => []
    ⟨xs.filter isValidUserId, e.fs, e.trace⟩

-- ========== DERIVED NOTIONS USED BY THE THEOREMS ==========

/-- `isinstance(v, str)`: used to state that stored timestamps are strings
(the shape on which Python's `sorted` comparison cannot raise). -/
def isStr : JVal → Bool
  | .jstr _ => true
  | _ => false

/-- Number of occurrences of `u` in a stored list under Python equality. -/
def pyCount (xs : List JVal) (u : JVal) : Nat :=
  (xs.filter (fun y => pyEq u y)).length

/-- A stored list is duplicate-free when no two entries are Python-equal. -/
def pyNodup (xs : List JVal) : Prop :=
  xs.Pairwise (fun a b => pyEq a b = false)

/-- `n` successive `add_subscriber` calls with the same id, threading the
filesystem. -/
def addIter (user_id : JVal) : Nat → FS → FS
  | 0, fs => fs
  | n + 1, fs => (add_subscriber (addIter user_id n fs) user_id).fs

-- ========== CONCRETE INSTANCES FOR WITNESSES AND COUNTEREXAMPLES ==========

/-- An empty filesystem: a fresh first run. -/
def fsC1 : FS := fun _ => none

/-- Announcement data lacking `sender_id` and `message_id`. -/
def dataC2 : JVal := .jobj [("content", .jstr "hello")]

/-- A receipts document whose entry for `"a"` holds an invalid (`0`) and a
valid (`7`) subscriber id. -/
def fsC3 : FS := fun p =>
  if p = READ_RECEIPTS_FILE then
    some (.doc (.jobj [("a", .jarr [.jint 0, .jint 7])]))
  else none

/-- A timestamp parser for the sweeper scenarios: `"t-11d"` parses to 11
days before time 0, `"t-9d"` to 9 days before; everything else fails. -/
def parseTsW : String → Option Int := fun s =>
  if s = "t-11d" then some (-950400)
  else if s = "t-9d" then some (-777600)
  else none

/-- Announcements (an 11-day-old and a 9-day-old record) and receipts for
both, for the sweeper scenario. -/
def fsC4 : FS := fun p =>
  if p = ANNOUNCEMENTS_FILE then
    some (.doc (.jobj
      [("old1", .jobj [("id", .jstr "old1"), ("timestamp", .jstr "t-11d")]),
       ("new1", .jobj [("id", .jstr "new1"), ("timestamp", .jstr "t-9d")])]))
  else if p = READ_RECEIPTS_FILE then
    some (.doc (.jobj [("old1", .jarr [.jint 5]), ("new1", .jarr [.jint 6])]))
  else none

/-- An announcements document holding an 11-day-old mapping record
together with a record that is not a mapping (`"x": 5` — valid JSON), the
store on which the sweep aborts. -/
def fsC4x : FS := fun p =>
  if p = ANNOUNCEMENTS_FILE then
    some (.doc (.jobj
      [("old1", .jobj [("id", .jstr "old1"), ("timestamp", .jstr "t-11d")]),
       ("x", .jint 5)]))
  else if p = READ_RECEIPTS_FILE then
    some (.doc (.jobj [("old1", .jarr [.jint 5])]))
  else none

/-- A subscribers document already holding id 2. -/
def fsC5 : FS := fun p =>
  if p = SUBSCRIBERS_FILE then some (.doc (.jarr [.jint 2])) else none

/-- An announcements document with two valid records sharing a timestamp,
a valid newer record, and a corrupt record (key ≠ id field). -/
def fsC6 : FS := fun p =>
  if p = ANNOUNCEMENTS_FILE then
    some (.doc (.jobj
      [("a1", .jobj [("id", .jstr "a1"), ("timestamp", .jstr "2026-01-01")]),
       ("bad", .jobj [("id", .jstr "zz"), ("timestamp", .jstr "2026-09-09")]),
       ("a2", .jobj [("id", .jstr "a2"), ("timestamp", .jstr "2026-01-01")]),
       ("a3", .jobj [("id", .jstr "a3"), ("timestamp", .jstr "2026-03-01")])]))
  else none

/-- A 9-day-old announcement only: nothing for the sweeper to delete. -/
def fsC8 : FS := fun p =>
  if p = ANNOUNCEMENTS_FILE then
    some (.doc (.jobj [("new1", .jobj [("timestamp", .jstr "t-9d")])]))
  else if p = READ_RECEIPTS_FILE then
    some (.doc (.jobj [("new1", .jarr [.jint 6])]))
  else none

/-- A receipts file holding text that does not parse as JSON. -/
def fsC9 : FS := fun p =>
  if p = READ_RECEIPTS_FILE then some .malformed else none

/-- An announcements document with one corrupt record (key `"a"`, id field
`"b"`). -/
def fsC10 : FS := fun p =>
  if p = ANNOUNCEMENTS_FILE then
    some (.doc (.jobj [("a", .jobj [("id", .jstr "b")])]))
  else none

-- ========== BASIC LEMMAS ==========

theorem pyEq_numVal_left {u a : JVal} {k : Int} (h : numVal u = some k)
    (ha : pyEq u a = true) : numVal a = some k := by
  cases u <;> cases a <;> simp_all [pyEq, numVal]

theorem pyEq_of_numVal {a b : JVal} {k : Int} (h1 : numVal a = some k)
    (h2 : numVal b = some k) : pyEq a b = true := by
  unfold pyEq
  rw [h1, h2]
  simp

theorem numVal_of_valid {u : JVal} (h : isValidUserId u = true) :
    ∃ k, numVal u = some k := by
  cases u <;> simp_all [isValidUserId, numVal]

theorem pyEq_refl_of_valid {u : JVal} (h : isValidUserId u = true) :
    pyEq u u = true := by
  obtain ⟨k, hk⟩ := numVal_of_valid h
  exact pyEq_of_numVal hk hk

theorem pyEq_symm (a b : JVal) : pyEq a b = pyEq b a := by
  cases a <;> cases b <;>
    simp_all [pyEq, numVal, BEq.comm]

theorem pyEq_trans_of_valid {u a b : JVal} (hu : isValidUserId u = true)
    (ha : pyEq u a = true) (hb : pyEq u b = true) : pyEq a b = true := by
  obtain ⟨k, hk⟩ := numVal_of_valid hu
  exact pyEq_of_numVal (pyEq_numVal_left hk ha) (pyEq_numVal_left hk hb)

theorem objMem_iff {d : Obj} {k : String} :
    objMem d k = true ↔ k ∈ d.map Prod.fst := by
  induction d with
  | nil => simp [objMem, objGet]
  | cons kv t ih =>
    simp only [List.map_cons, List.mem_cons]
    by_cases h : kv.1 = k
    · simp [objMem, objGet, List.find?, h]
    · have hb : (kv.1 == k) = false := by simpa using h
      have hstep : objMem (kv :: t) k = objMem t k := by
        simp [objMem, objGet, List.find?, hb]
      rw [hstep, ih]
      constructor
      · exact Or.inr
      · rintro (h' | hx)
        · exact absurd h'.symm h
        · exact hx

theorem objDel_eq_filter (d : Obj) (k : String) :
    objDel d k = d.filter (fun kv => kv.1 != k) := rfl

theorem objDel_of_not_mem {d : Obj} {k : String} (h : objMem d k = false) :
    objDel d k = d := by
  rw [objDel_eq_filter]
  apply List.filter_eq_self.mpr
  intro kv hkv
  have : kv.1 ≠ k := by
    intro he
    have : objMem d k = true := objMem_iff.mpr (by
      exact he ▸ List.mem_map_of_mem Prod.fst hkv)
    simp_all
  simpa using this

theorem objMem_filter_ne {d : Obj} {k k' : String} (h : k' ≠ k) :
    objMem (d.filter (fun kv => kv.1 != k)) k' = objMem d k' := by
  by_cases hm : objMem d k' = true
  · rw [hm]
    rw [objMem_iff] at hm ⊢
    obtain ⟨kv, hkv, he⟩ := List.mem_map.mp hm
    exact List.mem_map.mpr ⟨kv, List.mem_filter.mpr ⟨hkv, by simp [he, h]⟩, he⟩
  · rw [Bool.not_eq_true] at hm
    rw [hm]
    rw [Bool.eq_false_iff]
    intro hc
    rw [objMem_iff] at hc
    obtain ⟨kv, hkv, he⟩ := List.mem_map.mp hc
    have : kv ∈ d := (List.mem_filter.mp hkv).1
    exact absurd (objMem_iff.mpr (List.mem_map.mpr ⟨kv, this, he⟩)) (by simp [hm])

theorem nodup_keys_eq {l : Obj} (h : (l.map Prod.fst).Nodup)
    {a b : String × JVal} (ha : a ∈ l) (hb : b ∈ l) (he : a.1 = b.1) : a = b := by
  induction l with
  | nil => cases ha
  | cons x t ih =>
    simp only [List.map_cons, List.nodup_cons] at h
    rcases List.mem_cons.mp ha with rfl | ha' <;>
      rcases List.mem_cons.mp hb with rfl | hb'
    · rfl
    · exact absurd (he ▸ List.mem_map_of_mem Prod.fst hb') h.1
    · exact absurd (he ▸ List.mem_map_of_mem Prod.fst ha') h.1
    · exact ih h.2 ha' hb'

-- ========== SWEEPER LEMMAS ==========

theorem deleteMarked_nil (st : Obj × Obj × Nat) : deleteMarked st [] = st := rfl

theorem deleteMarked_spec (toDelete : List String) (anns receipts : Obj) (c : Nat)
    (hmem : ∀ id ∈ toDelete, objMem anns id = true) (hnd : toDelete.Nodup) :
    deleteMarked (anns, receipts, c) toDelete =
      (anns.filter (fun kv => !toDelete.contains kv.1),
       receipts.filter (fun kv => !toDelete.contains kv.1),
       c + toDelete.length) := by
  induction toDelete generalizing anns receipts c with
  | nil => simp [deleteMarked]
  | cons id rest ih =>
    have hid : objMem anns id = true := hmem id (List.mem_cons_self id rest)
    have hstep : deleteMarked (anns, receipts, c) (id :: rest) =
        deleteMarked (objDel anns id, receipts.filter (fun kv => kv.1 != id), c + 1) rest := by
      simp only [deleteMarked, List.foldl_cons, hid, if_true]
      by_cases hr : objMem receipts id = true
      · simp [hr, objDel_eq_filter]
      · rw [Bool.not_eq_true] at hr
        simp [hr]
        rw [← objDel_eq_filter, objDel_of_not_mem hr]
    rw [hstep]
    simp only [List.nodup_cons] at hnd
    have hmem' : ∀ id' ∈ rest, objMem (objDel anns id) id' = true := by
      intro id' hid'
      have hne : id' ≠ id := by
        intro he
        exact hnd.1 (by rw [← he]; exact hid')
      rw [objDel_eq_filter, objMem_filter_ne hne]
      exact hmem id' (List.mem_cons_of_mem id hid')
    rw [ih (objDel anns id) (receipts.filter (fun kv => kv.1 != id)) (c + 1) hmem' hnd.2]
    rw [objDel_eq_filter, List.filter_filter, List.filter_filter]
    refine congrArg₂ _ ?_ (congrArg₂ _ ?_ ?_)
    · apply List.filter_congr
      intro kv _
      by_cases he : kv.1 = id <;>
        simp [List.contains_cons, Bool.not_or, he, Bool.and_comm]
    · apply List.filter_congr
      intro kv _
      by_cases he : kv.1 = id <;>
        simp [List.contains_cons, Bool.not_or, he, Bool.and_comm]
    · simp only [List.length_cons]
      omega

/-- With pairwise-distinct keys, membership of a record's key among the
keys of the marked sublist is exactly the mark on that record. -/
theorem contains_marked_keys {anns : Obj} (p : String × JVal → Bool)
    (hnd : (anns.map Prod.fst).Nodup) {kv : String × JVal} (hkv : kv ∈ anns) :
    ((anns.filter p).map Prod.fst).contains kv.1 = p kv := by
  by_cases hp : p kv = true
  · rw [hp]
    have : kv.1 ∈ (anns.filter p).map Prod.fst :=
      List.mem_map_of_mem Prod.fst (List.mem_filter.mpr ⟨hkv, hp⟩)
    simpa [List.elem_iff] using this
  · rw [Bool.not_eq_true] at hp
    rw [hp]
    rw [Bool.eq_false_iff]
    intro hc
    rw [List.elem_iff] at hc
    obtain ⟨kv', hkv', he⟩ := List.mem_map.mp hc
    have hkv'a : kv' ∈ anns := (List.mem_filter.mp hkv').1
    have : kv' = kv := nodup_keys_eq hnd hkv'a hkv he
    rw [this] at hkv'
    have := (List.mem_filter.mp hkv').2
    simp [hp] at this

-- ========== SORTING LEMMAS ==========

theorem pyStrLt_irrefl (a : List Char) : pyStrLt a a = false := by
  induction a with
  | nil => rfl
  | cons x xs ih => simp [pyStrLt, ih]

theorem pyStrLt_asymm {a b : List Char} (h : pyStrLt a b = true) :
    pyStrLt b a = false := by
  induction a generalizing b with
  | nil =>
    cases b with
    | nil => simp [pyStrLt] at h
    | cons y ys => rfl
  | cons x xs ih =>
    cases b with
    | nil => simp [pyStrLt] at h
    | cons y ys =>
      simp only [pyStrLt] at h ⊢
      by_cases h1 : x.toNat < y.toNat
      · rw [if_neg (show ¬ y.toNat < x.toNat by omega), if_pos h1]
      · rw [if_neg h1] at h
        by_cases h2 : y.toNat < x.toNat
        · rw [if_pos h2] at h
          cases h
        · rw [if_neg h2] at h
          rw [if_neg h2, if_neg h1]
          exact ih h

theorem pyStrLt_neg_trans {a b c : List Char} (h1 : pyStrLt a b = false)
    (h2 : pyStrLt b c = false) : pyStrLt a c = false := by
  induction a generalizing b c with
  | nil =>
    cases b with
    | nil =>
      cases c with
      | nil => rfl
      | cons z zs => simp [pyStrLt] at h2
    | cons y ys => simp [pyStrLt] at h1
  | cons x xs ih =>
    cases c with
    | nil => rfl
    | cons z zs =>
      cases b with
      | nil => simp [pyStrLt] at h2
      | cons y ys =>
        simp only [pyStrLt] at h1 h2 ⊢
        by_cases hxy : x.toNat < y.toNat
        · rw [if_pos hxy] at h1
          cases h1
        · by_cases hyz : y.toNat < z.toNat
          · rw [if_pos hyz] at h2
            cases h2
          · rw [if_neg hxy] at h1
            rw [if_neg hyz] at h2
            rw [if_neg (show ¬ x.toNat < z.toNat by omega)]
            by_cases hyx : y.toNat < x.toNat
            · rw [if_pos (show z.toNat < x.toNat by omega)]
            · rw [if_neg hyx] at h1
              by_cases hzy : z.toNat < y.toNat
              · rw [if_pos (show z.toNat < x.toNat by omega)]
              · rw [if_neg (show ¬ z.toNat < x.toNat by omega)]
                rw [if_neg hzy] at h2
                exact ih h1 h2

theorem tsLt_ne {s t : String} (h : tsLt s t = true) : s ≠ t := by
  intro he
  rw [he] at h
  rw [tsLt, pyStrLt_irrefl] at h
  cases h

theorem insertTsDesc_perm (x : String × JVal) (l : List (String × JVal)) :
    (insertTsDesc x l).Perm (x :: l) := by
  induction l with
  | nil => exact List.Perm.refl _
  | cons y ys ih =>
    simp only [insertTsDesc]
    by_cases h : tsLt (tsKey x) (tsKey y) = true
    · rw [if_pos h]
      exact (ih.cons y).trans (List.Perm.swap x y ys)
    · rw [if_neg (by simpa using h)]

theorem sortTsDesc_perm (l : List (String × JVal)) : (sortTsDesc l).Perm l := by
  induction l with
  | nil => exact List.Perm.refl _
  | cons x xs ih =>
    exact (insertTsDesc_perm x (sortTsDesc xs)).trans (ih.cons x)

theorem insertTsDesc_sorted (x : String × JVal) (l : List (String × JVal))
    (h : l.Pairwise (fun a b => tsLt (tsKey a) (tsKey b) = false)) :
    (insertTsDesc x l).Pairwise (fun a b => tsLt (tsKey a) (tsKey b) = false) := by
  induction l with
  | nil => simp [insertTsDesc]
  | cons y ys ih =>
    simp only [insertTsDesc]
    rw [List.pairwise_cons] at h
    by_cases hlt : tsLt (tsKey x) (tsKey y) = true
    · rw [if_pos hlt]
      rw [List.pairwise_cons]
      refine ⟨?_, ih h.2⟩
      intro z hz
      have hz2 : z ∈ x :: ys := (insertTsDesc_perm x ys).mem_iff.mp hz
      rcases List.mem_cons.mp hz2 with rfl | hz'
      · exact pyStrLt_asymm hlt
      · exact h.1 z hz'
    · have hlt' : tsLt (tsKey x) (tsKey y) = false := by simpa using hlt
      rw [if_neg (by simp [hlt'])]
      rw [List.pairwise_cons]
      refine ⟨?_, List.pairwise_cons.mpr h⟩
      intro z hz
      rcases List.mem_cons.mp hz with rfl | hz'
      · exact hlt'
      · exact pyStrLt_neg_trans hlt' (h.1 z hz')

theorem sortTsDesc_sorted (l : List (String × JVal)) :
    (sortTsDesc l).Pairwise (fun a b => tsLt (tsKey a) (tsKey b) = false) := by
  induction l with
  | nil => simp [sortTsDesc]
  | cons x xs ih => exact insertTsDesc_sorted x (sortTsDesc xs) ih

theorem filter_insertTsDesc (x : String × JVal) (l : List (String × JVal)) (s : String) :
    (insertTsDesc x l).filter (fun kv => tsKey kv == s) =
      if tsKey x == s then x :: l.filter (fun kv => tsKey kv == s)
      else l.filter (fun kv => tsKey kv == s) := by
  induction l with
  | nil =>
    by_cases hx : (tsKey x == s) = true <;> simp [insertTsDesc, hx, List.filter]
  | cons y ys ih =>
    simp only [insertTsDesc]
    by_cases hlt : tsLt (tsKey x) (tsKey y) = true
    · rw [if_pos hlt]
      by_cases hy : (tsKey y == s) = true
      · have hx' : (tsKey x == s) = false := by
          rw [beq_iff_eq] at hy
          simp only [Bool.eq_false_iff, ne_eq, beq_iff_eq]
          intro hc
          exact tsLt_ne hlt (by rw [hc, hy])
        simp [List.filter_cons, hy, hx', ih]
      · have hy' : (tsKey y == s) = false := by simpa using hy
        simp [List.filter_cons, hy', ih]
    · rw [if_neg (by simpa using hlt)]
      by_cases hx : (tsKey x == s) = true <;>
        simp [List.filter_cons, hx]

theorem filter_sortTsDesc (l : List (String × JVal)) (s : String) :
    (sortTsDesc l).filter (fun kv => tsKey kv == s) =
      l.filter (fun kv => tsKey kv == s) := by
  induction l with
  | nil => rfl
  | cons x xs ih =>
    simp only [sortTsDesc]
    rw [filter_insertTsDesc]
    by_cases hx : (tsKey x == s) = true
    · rw [if_pos hx, ih]
      simp [List.filter_cons, hx]
    · have hx' : (tsKey x == s) = false := by simpa using hx
      rw [if_neg (by simp [hx']), ih]
      simp [List.filter_cons, hx']

-- ========== SUBSCRIBER COUNTING LEMMAS ==========

theorem listContains_iff_count_pos {xs : List JVal} {u : JVal} :
    listContains xs u = true ↔ 0 < pyCount xs u := by
  simp only [listContains, pyCount, List.any_eq_true, List.length_pos,
    Ne, List.filter_eq_nil_iff]
  constructor
  · rintro ⟨y, hy, he⟩ hc
    exact hc y hy he
  · intro h
    by_contra hc
    push_neg at hc
    exact h (fun y hy he => hc y hy he)

theorem pyCount_append_self {xs : List JVal} {u : JVal}
    (hu : isValidUserId u = true) :
    pyCount (xs ++ [u]) u = pyCount xs u + 1 := by
  simp [pyCount, List.filter_append, pyEq_refl_of_valid hu]

theorem pyCount_eq_one_of_contains {xs : List JVal} {u : JVal}
    (hu : isValidUserId u = true) (hnd : pyNodup xs)
    (hc : listContains xs u = true) : pyCount xs u = 1 := by
  induction xs with
  | nil => simp [listContains] at hc
  | cons a t ih =>
    rw [pyNodup, List.pairwise_cons] at hnd
    by_cases ha : pyEq u a = true
    · have htail : ∀ y ∈ t, pyEq u y = false := by
        intro y hy
        rw [Bool.eq_false_iff]
        intro hcy
        have : pyEq a y = true := pyEq_trans_of_valid hu ha hcy
        rw [hnd.1 y hy] at this
        cases this
      have : t.filter (fun y => pyEq u y) = [] :=
        List.filter_eq_nil_iff.mpr (by intro y hy; simp [htail y hy])
      simp [pyCount, List.filter_cons, ha, this]
    · have ha' : pyEq u a = false := by simpa using ha
      have hct : listContains t u = true := by
        simp only [listContains, List.any_cons, ha', Bool.false_or] at hc
        exact hc
      have := ih hnd.2 hct
      simpa [pyCount, List.filter_cons, ha'] using this

theorem pyNodup_append_of_not_contains {xs : List JVal} {u : JVal}
    (hnd : pyNodup xs) (hc : listContains xs u = false) :
    pyNodup (xs ++ [u]) := by
  rw [pyNodup, List.pairwise_append]
  refine ⟨hnd, List.pairwise_singleton _ _, ?_⟩
  intro a ha b hb
  rw [List.mem_singleton] at hb
  rw [hb, pyEq_symm]
  rw [Bool.eq_false_iff]
  intro hcc
  have hct : listContains xs u = true := by
    simp only [listContains, List.any_eq_true]
    exact ⟨a, ha, hcc⟩
  rw [hct] at hc
  cases hc

-- ========== STORE PRIMITIVE LEMMAS ==========

theorem asObj_jobj (d : Obj) : asObj (.jobj d) = d := rfl

theorem load_json_state (fs : FS) (path : String) (dflt : Option JVal) :
    (load_json fs path dflt).fs = fs
    ∧ (load_json fs path dflt).trace = [.readEv path] := by
  cases h : fs path with
  | none => simp [load_json, h]
  | some fc => cases fc <;> simp [load_json, h]

-- ========== CLAIM C1 ==========

/-- C1: on a fresh store, `mark_as_read("ann1", 1)` twice: the FIRST call
already returns `(true, true)` — not the claimed `(true, false)` — because
`mark_as_read` recomputes the duplicate flag from the post-mutation
document, in which the user is always present.  The second call also
returns `(true, true)`, the count is 1 after both calls, and the second
(duplicate-finding) cycle leaves the stored document unchanged. -/
theorem C1_mark_as_read_first_call_reports_duplicate :
    (mark_as_read fsC1 "ann1" (.jint 1)).ret = (true, true)
    ∧ (mark_as_read (mark_as_read fsC1 "ann1" (.jint 1)).fs "ann1" (.jint 1)).ret
        = (true, true)
    ∧ (get_read_count
        (mark_as_read (mark_as_read fsC1 "ann1" (.jint 1)).fs "ann1" (.jint 1)).fs
        "ann1").ret = 1
    ∧ (mark_as_read (mark_as_read fsC1 "ann1" (.jint 1)).fs "ann1" (.jint 1)).fs
        READ_RECEIPTS_FILE = some (.doc (.jobj [("ann1", .jarr [.jint 1])]))
    ∧ (mark_as_read fsC1 "ann1" (.jint 1)).fs READ_RECEIPTS_FILE
        = some (.doc (.jobj [("ann1", .jarr [.jint 1])])) :=
  ⟨rfl, rfl, rfl, rfl, rfl⟩

-- ========== CLAIM C2 ==========

/-- C2 counterexample: `create_announcement` with a fields mapping missing
`sender_id`/`message_id` is rejected (boolean failure, no document
changed), but only AFTER a storage read of the announcements document —
not before any storage I/O as claimed. -/
theorem C2_counterexample_create_reads_before_reject :
    (create_announcement fsC1 "ab12cd34" dataC2 "2026-01-01T00:00:00").ret = false
    ∧ (create_announcement fsC1 "ab12cd34" dataC2 "2026-01-01T00:00:00").trace
        = [.readEv ANNOUNCEMENTS_FILE] :=
  ⟨rfl, rfl⟩

/-- C2 (amended): an invalid identifier (`add_subscriber`,
`mark_as_read`) or an empty id / non-mapping payload (`create_announcement`)
is rejected with a boolean failure before any storage I/O, leaving the
filesystem unchanged; a fields mapping missing `sender_id` or `message_id`
is rejected with a boolean failure after exactly one read and before any
write, also leaving the filesystem unchanged. -/
theorem C2_validation_rejection :
    (∀ (fs : FS) (uid : JVal), isValidUserId uid = false →
        add_subscriber fs uid = ⟨false, fs, []⟩)
    ∧ (∀ (fs : FS) (aid : String) (uid : JVal),
        aid = "" ∨ isValidUserId uid = false →
        mark_as_read fs aid uid = ⟨(false, false), fs, []⟩)
    ∧ (∀ (fs : FS) (aid : String) (data : JVal) (nowIso : String),
        aid = "" ∨ isObj data = false →
        create_announcement fs aid data nowIso = ⟨false, fs, []⟩)
    ∧ (∀ (fs : FS) (aid : String) (d : Obj) (nowIso : String),
        aid ≠ "" →
        objMem d "sender_id" = false ∨ objMem d "message_id" = false →
        create_announcement fs aid (.jobj d) nowIso
          = ⟨false, fs, [.readEv ANNOUNCEMENTS_FILE]⟩) := by
  refine ⟨?_, ?_, ?_, ?_⟩
  · intro fs uid h
    simp [add_subscriber, h]
  · intro fs aid uid h
    rcases h with rfl | h
    · simp [mark_as_read]
    · simp [mark_as_read, h]
  · intro fs aid data nowIso h
    rcases h with rfl | h
    · simp [create_announcement]
    · simp [create_announcement, h]
  · intro fs aid d nowIso ha h
    have ha' : (aid == "") = false := by simpa using ha
    have hl := load_json_state fs ANNOUNCEMENTS_FILE (some (.jobj []))
    rcases h with h | h <;>
      simp [create_announcement, ha', h, asObj, isObj, hl.1, hl.2]

/-- C2 witness: the amended theorem at concrete inputs. -/
theorem C2_validation_rejection_witness :
    add_subscriber fsC1 (.jint 0) = ⟨false, fsC1, []⟩
    ∧ mark_as_read fsC1 "" (.jint 1) = ⟨(false, false), fsC1, []⟩
    ∧ create_announcement fsC1 "x1" (.jint 3) "t" = ⟨false, fsC1, []⟩
    ∧ create_announcement fsC1 "ab12cd34" (.jobj [("content", .jstr "hello")]) "t"
        = ⟨false, fsC1, [.readEv ANNOUNCEMENTS_FILE]⟩ :=
  ⟨C2_validation_rejection.1 fsC1 (.jint 0) rfl,
   C2_validation_rejection.2.1 fsC1 "" (.jint 1) (Or.inl rfl),
   C2_validation_rejection.2.2.1 fsC1 "x1" (.jint 3) "t" (Or.inr rfl),
   C2_validation_rejection.2.2.2 fsC1 "ab12cd34" [("content", .jstr "hello")] "t"
     (by decide) (Or.inl rfl)⟩

-- ========== CLAIM C3 ==========

/-- C3 counterexample: with stored receipts `{"a": [0, 7]}` (one invalid id
`0`, one valid id `7`), `get_read_count("a")` is `2` but `get_read_users("a")`
has length `1`: the count is NOT the number of valid identifiers. -/
theorem C3_counterexample_count_not_filtered :
    (get_read_count fsC3 "a").ret = 2
    ∧ ((get_read_users fsC3 "a").ret).length = 1 :=
  ⟨rfl, rfl⟩

/-- C3 (amended): `get_read_count` returns the RAW length of the stored
list for the announcement (without identifier filtering), while
`get_read_users` filters to valid positive integer ids; the two agree
exactly when every stored entry is a valid identifier. -/
theorem C3_count_raw_users_filtered (fs : FS) (d : Obj) (aid : String)
    (xs : List JVal)
    (hfs : fs READ_RECEIPTS_FILE = some (.doc (.jobj d)))
    (ha : aid ≠ "")
    (hxs : objGetD d aid (.jarr []) = .jarr xs) :
    (get_read_count fs aid).ret = xs.length
    ∧ (get_read_users fs aid).ret = xs.filter isValidUserId
    ∧ ((∀ x ∈ xs, isValidUserId x = true) →
        (get_read_count fs aid).ret = ((get_read_users fs aid).ret).length) := by
  have ha' : (aid == "") = false := by simpa using ha
  have hload : (load_json fs READ_RECEIPTS_FILE (some (.jobj []))).ret = .jobj d := by
    simp [load_json, hfs, isContainer]
  refine ⟨?_, ?_, ?_⟩
  · simp [get_read_count, ha', hload, receiptsEntry, hxs]
  · simp [get_read_users, ha', hload, receiptsEntry, hxs]
  · intro hall
    simp [get_read_count, get_read_users, ha', hload, receiptsEntry, hxs,
      List.filter_eq_self.mpr hall]

/-- C3 witness: the amended theorem at the counterexample store, and at an
all-valid store where count and filtered length agree. -/
theorem C3_count_raw_users_filtered_witness :
    (get_read_count fsC3 "a").ret = ([JVal.jint 0, JVal.jint 7]).length
    ∧ (get_read_users fsC3 "a").ret
        = ([JVal.jint 0, JVal.jint 7]).filter isValidUserId
    ∧ (get_read_count (fun p =>
          if p = READ_RECEIPTS_FILE then some (.doc (.jobj [("b", .jarr [.jint 3])]))
          else none) "b").ret
        = ((get_read_users (fun p =>
          if p = READ_RECEIPTS_FILE then some (.doc (.jobj [("b", .jarr [.jint 3])]))
          else none) "b").ret).length :=
  ⟨(C3_count_raw_users_filtered fsC3 [("a", .jarr [.jint 0, .jint 7])] "a"
      [.jint 0, .jint 7] rfl (by decide) rfl).1,
   (C3_count_raw_users_filtered fsC3 [("a", .jarr [.jint 0, .jint 7])] "a"
      [.jint 0, .jint 7] rfl (by decide) rfl).2.1,
   (C3_count_raw_users_filtered (fun p =>
        if p = READ_RECEIPTS_FILE then some (.doc (.jobj [("b", .jarr [.jint 3])]))
        else none) [("b", .jarr [.jint 3])] "b" [.jint 3] rfl (by decide) rfl).2.2
     (by decide)⟩

-- ========== CLAIM C7 ==========

/-- C7: `save_json` followed by `load_json` on the same path returns a
document equal to the saved one, for every container document; a
non-container document is rejected without writing, leaving the
filesystem (and trace) untouched. -/
theorem C7_save_load_round_trip (fs : FS) (path : String) (D : JVal)
    (dflt : Option JVal) :
    (isContainer D = true →
      (save_json fs path D).ret = true
      ∧ (load_json (save_json fs path D).fs path dflt).ret = D)
    ∧ (isContainer D = false →
      save_json fs path D = ⟨false, fs, []⟩) := by
  constructor
  · intro h
    refine ⟨by simp [save_json, h], ?_⟩
    simp [save_json, h, load_json, fsWrite]
  · intro h
    simp [save_json, h]

/-- C7 witness: round trip of a concrete nested document, and rejection of
a non-container value. -/
theorem C7_save_load_round_trip_witness :
    (save_json fsC1 "announcements.json"
        (.jobj [("k", .jarr [.jint 3, .jnull, .jstr "s", .jbool true, .jfloat 7])])).ret
      = true
    ∧ (load_json (save_json fsC1 "announcements.json"
        (.jobj [("k", .jarr [.jint 3, .jnull, .jstr "s", .jbool true, .jfloat 7])])).fs
        "announcements.json" none).ret
      = .jobj [("k", .jarr [.jint 3, .jnull, .jstr "s", .jbool true, .jfloat 7])]
    ∧ save_json fsC1 "x.json" (.jint 5) = ⟨false, fsC1, []⟩ :=
  ⟨(C7_save_load_round_trip fsC1 "announcements.json"
      (.jobj [("k", .jarr [.jint 3, .jnull, .jstr "s", .jbool true, .jfloat 7])]) none).1
      rfl |>.1,
   (C7_save_load_round_trip fsC1 "announcements.json"
      (.jobj [("k", .jarr [.jint 3, .jnull, .jstr "s", .jbool true, .jfloat 7])]) none).1
      rfl |>.2,
   (C7_save_load_round_trip fsC1 "x.json" (.jint 5) none).2 rfl⟩

-- ========== CLAIM C9 ==========

/-- C9 counterexample: on a receipts file with malformed content, the
atomic mutator does NOT present the path-based default to the callback —
the cycle fails outright, returning `(false, none)`, whereas running the
cycle on the path default `{}` would succeed with `(true, some {})`. -/
theorem C9_counterexample_atomic_malformed_fails :
    (atomic_read_modify_write fsC9 READ_RECEIPTS_FILE (fun d => d)).ret
      = (false, none)
    ∧ pathDefault READ_RECEIPTS_FILE = .jobj []
    ∧ (rmwApply fsC9 READ_RECEIPTS_FILE (fun d => d)
        (pathDefault READ_RECEIPTS_FILE)).ret = (true, some (.jobj [])) :=
  ⟨rfl, rfl, rfl⟩

/-- C9 (amended): `load_json` with no default presents the path-based
document (empty list iff the path contains `"subscribers"`) for an absent
file, malformed content, and wrong-shaped content alike; the atomic
mutator applies the path rule only when the file is ABSENT — malformed
content fails the whole cycle without invoking the callback, and a
parseable but wrong-shaped document is passed to the callback as-is. -/
theorem C9_default_rules :
    (∀ (fs : FS) (path : String),
      (fs path = none ∨ fs path = some .malformed
        ∨ ∃ v, fs path = some (.doc v) ∧ isContainer v = false) →
      (load_json fs path none).ret = pathDefault path)
    ∧ (∀ (fs : FS) (path : String) (cb : JVal → JVal), fs path = none →
        atomic_read_modify_write fs path cb = rmwApply fs path cb (pathDefault path))
    ∧ (∀ (fs : FS) (path : String) (cb : JVal → JVal), fs path = some .malformed →
        atomic_read_modify_write fs path cb = ⟨(false, none), fs, [.readEv path]⟩)
    ∧ (∀ (fs : FS) (path : String) (cb : JVal → JVal) (v : JVal),
        fs path = some (.doc v) →
        atomic_read_modify_write fs path cb = rmwApply fs path cb v) := by
  refine ⟨?_, ?_, ?_, ?_⟩
  · intro fs path h
    rcases h with h | h | ⟨v, h, hv⟩ <;> simp [load_json, h]
    intro hc
    rw [hv] at hc
    cases hc
  · intro fs path cb h
    simp [atomic_read_modify_write, h]
  · intro fs path cb h
    simp [atomic_read_modify_write, h]
  · intro fs path cb v h
    simp [atomic_read_modify_write, h]

/-- C9 witness: the amended rules at concrete filesystems — a malformed
receipts file, an absent subscribers file, and a wrong-shaped (integer)
document. -/
theorem C9_default_rules_witness :
    (load_json fsC9 READ_RECEIPTS_FILE none).ret = pathDefault READ_RECEIPTS_FILE
    ∧ atomic_read_modify_write fsC9 READ_RECEIPTS_FILE (fun d => d)
        = ⟨(false, none), fsC9, [.readEv READ_RECEIPTS_FILE]⟩
    ∧ atomic_read_modify_write fsC1 SUBSCRIBERS_FILE (fun d => d)
        = rmwApply fsC1 SUBSCRIBERS_FILE (fun d => d) (pathDefault SUBSCRIBERS_FILE)
    ∧ atomic_read_modify_write
        (fun p => if p = SUBSCRIBERS_FILE then some (.doc (.jint 9)) else none)
        SUBSCRIBERS_FILE (fun d => d)
        = rmwApply
            (fun p => if p = SUBSCRIBERS_FILE then some (.doc (.jint 9)) else none)
            SUBSCRIBERS_FILE (fun d => d) (.jint 9) :=
  ⟨C9_default_rules.1 fsC9 READ_RECEIPTS_FILE (Or.inr (Or.inl rfl)),
   C9_default_rules.2.2.1 fsC9 READ_RECEIPTS_FILE (fun d => d) rfl,
   C9_default_rules.2.1 fsC1 SUBSCRIBERS_FILE (fun d => d) rfl,
   C9_default_rules.2.2.2
     (fun p => if p = SUBSCRIBERS_FILE then some (.doc (.jint 9)) else none)
     SUBSCRIBERS_FILE (fun d => d) (.jint 9) rfl⟩

-- ========== CLAIM C10 ==========

/-- C10: `get_announcements_count` is the raw top-level length and
`announcement_exists` is raw key membership — neither applies the
key-equals-id filter — so with the one-corrupt-record store `fsC10` the
count (1) exceeds the length of `get_all_announcements` (0), and
`announcement_exists "a"` is true for a record `get_all_announcements`
excludes. -/
theorem C10_count_and_exists_unfiltered (fs : FS) (d : Obj) (k : String)
    (hfs : fs ANNOUNCEMENTS_FILE = some (.doc (.jobj d))) :
    (get_announcements_count fs).ret = d.length
    ∧ (announcement_exists fs k).ret = objMem d k
    ∧ (get_announcements_count fsC10).ret = 1
    ∧ (get_all_announcements fsC10).ret = []
    ∧ (announcement_exists fsC10 "a").ret = true := by
  have hload : (load_json fs ANNOUNCEMENTS_FILE (some (.jobj []))).ret = .jobj d := by
    simp [load_json, hfs, isContainer]
  exact ⟨by simp [get_announcements_count, hload, pyLen],
    by simp [announcement_exists, hload, pyContainsKey],
    rfl, rfl, rfl⟩

/-- C10 witness: the unfiltered count and membership at the concrete
corrupt store. -/
theorem C10_count_and_exists_unfiltered_witness :
    (get_announcements_count fsC10).ret = ([("a", JVal.jobj [("id", JVal.jstr "b")])]).length
    ∧ (announcement_exists fsC10 "a").ret
        = objMem [("a", JVal.jobj [("id", JVal.jstr "b")])] "a" :=
  ⟨(C10_count_and_exists_unfiltered fsC10 [("a", .jobj [("id", .jstr "b")])] "a" rfl).1,
   (C10_count_and_exists_unfiltered fsC10 [("a", .jobj [("id", .jstr "b")])] "a" rfl).2.1⟩

-- ========== CLAIM C5 ==========

theorem add_subscriber_step (fs : FS) (xs : List JVal) (uid : JVal)
    (hv : isValidUserId uid = true)
    (hfs : fs SUBSCRIBERS_FILE = some (.doc (.jarr xs))) :
    (add_subscriber fs uid).ret = true
    ∧ (add_subscriber fs uid).fs SUBSCRIBERS_FILE
        = some (.doc (.jarr (if listContains xs uid then xs else xs ++ [uid]))) := by
  by_cases hc : listContains xs uid = true <;>
    simp [add_subscriber, hv, atomic_read_modify_write, hfs, rmwApply,
      modify_subscribers_add, hc, isContainer, fsWrite]

theorem addIter_count (uid : JVal) (hv : isValidUserId uid = true) (fs : FS)
    (xs : List JVal) (hfs : fs SUBSCRIBERS_FILE = some (.doc (.jarr xs)))
    (hnd : pyNodup xs) (n : Nat) :
    ∃ ys, (addIter uid (n + 1) fs) SUBSCRIBERS_FILE = some (.doc (.jarr ys))
      ∧ pyNodup ys ∧ pyCount ys uid = 1 := by
  induction n with
  | zero =>
    have hstep := add_subscriber_step fs xs uid hv hfs
    refine ⟨if listContains xs uid then xs else xs ++ [uid], hstep.2, ?_, ?_⟩
    · by_cases hc : listContains xs uid = true
      · simpa [hc] using hnd
      · have hc' : listContains xs uid = false := by simpa using hc
        simpa [hc'] using pyNodup_append_of_not_contains hnd hc'
    · by_cases hc : listContains xs uid = true
      · simpa [hc] using pyCount_eq_one_of_contains hv hnd hc
      · have hc' : listContains xs uid = false := by simpa using hc
        have h0 : pyCount xs uid = 0 := by
          by_contra hpos
          exact absurd (listContains_iff_count_pos.mpr (Nat.pos_of_ne_zero hpos))
            (by simp [hc'])
        simp [hc', pyCount_append_self hv, h0]
  | succ m ih =>
    obtain ⟨ys, hys, hysnd, hysc⟩ := ih
    have hcontains : listContains ys uid = true :=
      listContains_iff_count_pos.mpr (by omega)
    have hstep := add_subscriber_step (addIter uid (m + 1) fs) ys uid hv hys
    exact ⟨ys, by simpa [addIter, hcontains] using hstep.2, hysnd, hysc⟩

/-- C5: repeated `add_subscriber` with the same valid id, from a
duplicate-free stored list, leaves exactly one occurrence of the id (under
Python equality); an invalid id is rejected without touching storage; an
already-present id is a success that leaves the stored list unchanged. -/
theorem C5_add_subscriber_unique :
    (∀ (fs : FS) (uid : JVal), isValidUserId uid = false →
        add_subscriber fs uid = ⟨false, fs, []⟩)
    ∧ (∀ (fs : FS) (xs : List JVal) (uid : JVal), isValidUserId uid = true →
        fs SUBSCRIBERS_FILE = some (.doc (.jarr xs)) →
        listContains xs uid = true →
        (add_subscriber fs uid).ret = true
        ∧ (add_subscriber fs uid).fs SUBSCRIBERS_FILE = some (.doc (.jarr xs)))
    ∧ (∀ (fs : FS) (xs : List JVal) (uid : JVal) (n : Nat),
        isValidUserId uid = true →
        fs SUBSCRIBERS_FILE = some (.doc (.jarr xs)) → pyNodup xs →
        ∃ ys, (addIter uid (n + 1) fs) SUBSCRIBERS_FILE = some (.doc (.jarr ys))
          ∧ pyCount ys uid = 1) := by
  refine ⟨?_, ?_, ?_⟩
  · intro fs uid h
    simp [add_subscriber, h]
  · intro fs xs uid hv hfs hc
    have hstep := add_subscriber_step fs xs uid hv hfs
    exact ⟨hstep.1, by simpa [hc] using hstep.2⟩
  · intro fs xs uid n hv hfs hnd
    obtain ⟨ys, hys, _, hysc⟩ := addIter_count uid hv fs xs hfs hnd n
    exact ⟨ys, hys, hysc⟩

/-- C5 witness: rejection of id `0`, no-op success re-adding the present
id `2`, and two successive adds of id `7` to the store holding `[2]`. -/
theorem C5_add_subscriber_unique_witness :
    add_subscriber fsC1 (.jint 0) = ⟨false, fsC1, []⟩
    ∧ ((add_subscriber fsC5 (.jint 2)).ret = true
        ∧ (add_subscriber fsC5 (.jint 2)).fs SUBSCRIBERS_FILE
            = some (.doc (.jarr [.jint 2])))
    ∧ (∃ ys, (addIter (.jint 7) 2 fsC5) SUBSCRIBERS_FILE
          = some (.doc (.jarr ys)) ∧ pyCount ys (.jint 7) = 1) :=
  ⟨C5_add_subscriber_unique.1 fsC1 (.jint 0) rfl,
   C5_add_subscriber_unique.2.1 fsC5 [.jint 2] (.jint 2) rfl rfl rfl,
   C5_add_subscriber_unique.2.2 fsC5 [.jint 2] (.jint 7) 1 rfl rfl
     (by simp [pyNodup])⟩

-- ========== CLAIM C6 ==========

/-- C6: `get_all_announcements` returns exactly the records passing the
key-equals-id validity check (a permutation of the filtered store), in
timestamp-descending order, with records of equal timestamp kept in their
original relative order (stability, stated as filter-preservation for
every timestamp value).  The hypothesis that valid records carry string
timestamps delimits the stores on which Python's `sorted` key comparison
is defined. -/
theorem C6_list_all_sorted_stable (fs : FS) (d : Obj)
    (hfs : fs ANNOUNCEMENTS_FILE = some (.doc (.jobj d)))
    (_hts : ∀ kv ∈ d, validAnnouncement kv.1 kv.2 = true →
        isStr (objGetD (asObj kv.2) "timestamp" (.jstr "")) = true) :
    ((get_all_announcements fs).ret).Perm
        (d.filter (fun kv => validAnnouncement kv.1 kv.2))
    ∧ ((get_all_announcements fs).ret).Pairwise
        (fun a b => tsLt (tsKey a) (tsKey b) = false)
    ∧ (∀ s, ((get_all_announcements fs).ret).filter (fun kv => tsKey kv == s)
        = (d.filter (fun kv => validAnnouncement kv.1 kv.2)).filter
            (fun kv => tsKey kv == s)) := by
  have hload : (load_json fs ANNOUNCEMENTS_FILE (some (.jobj []))).ret = .jobj d := by
    simp [load_json, hfs, isContainer]
  have hret : (get_all_announcements fs).ret
      = sortTsDesc (d.filter (fun kv => validAnnouncement kv.1 kv.2)) := by
    simp [get_all_announcements, hload, asObj]
  rw [hret]
  exact ⟨sortTsDesc_perm _, sortTsDesc_sorted _, fun s => filter_sortTsDesc _ s⟩

/-- C6 witness: the store `fsC6` (records `a1`, `a2` sharing a timestamp,
a newer `a3`, and a corrupt record excluded); the returned order is
`a3, a1, a2` — newest first, the tie in original order. -/
theorem C6_list_all_sorted_stable_witness :
    ((get_all_announcements fsC6).ret).Perm
      (([("a1", JVal.jobj [("id", JVal.jstr "a1"), ("timestamp", JVal.jstr "2026-01-01")]),
         ("bad", JVal.jobj [("id", JVal.jstr "zz"), ("timestamp", JVal.jstr "2026-09-09")]),
         ("a2", JVal.jobj [("id", JVal.jstr "a2"), ("timestamp", JVal.jstr "2026-01-01")]),
         ("a3", JVal.jobj [("id", JVal.jstr "a3"), ("timestamp", JVal.jstr "2026-03-01")])]
        ).filter (fun kv => validAnnouncement kv.1 kv.2))
    ∧ (get_all_announcements fsC6).ret
      = [("a3", JVal.jobj [("id", JVal.jstr "a3"), ("timestamp", JVal.jstr "2026-03-01")]),
         ("a1", JVal.jobj [("id", JVal.jstr "a1"), ("timestamp", JVal.jstr "2026-01-01")]),
         ("a2", JVal.jobj [("id", JVal.jstr "a2"), ("timestamp", JVal.jstr "2026-01-01")])] :=
  ⟨(C6_list_all_sorted_stable fsC6
      [("a1", .jobj [("id", .jstr "a1"), ("timestamp", .jstr "2026-01-01")]),
       ("bad", .jobj [("id", .jstr "zz"), ("timestamp", .jstr "2026-09-09")]),
       ("a2", .jobj [("id", .jstr "a2"), ("timestamp", .jstr "2026-01-01")]),
       ("a3", .jobj [("id", .jstr "a3"), ("timestamp", .jstr "2026-03-01")])]
      rfl (by decide)).1,
   rfl⟩

-- ========== CLAIM C8 ==========

/-- C8: when every stored announcement has a parsable timestamp within the
retention window, the sweeper returns 0, performs only the two loads, and
leaves the filesystem — hence both documents — untouched. -/
theorem C8_sweep_no_deletion_no_write (parseTs : String → Option Int)
    (now : Int) (fs : FS) (anns : Obj)
    (hA : fs ANNOUNCEMENTS_FILE = some (.doc (.jobj anns)))
    (hun : ∀ kv ∈ anns, markedForDeletion parseTs
        (now - ANNOUNCEMENT_RETENTION_DAYS * 86400) (asObj kv.2) = false) :
    cleanup_old_announcements parseTs now fs
      = ⟨0, fs, [.readEv ANNOUNCEMENTS_FILE, .readEv READ_RECEIPTS_FILE]⟩ := by
  have hload1 : (load_json fs ANNOUNCEMENTS_FILE (some (.jobj []))).ret = .jobj anns := by
    simp [load_json, hA, isContainer]
  have hl1 := load_json_state fs ANNOUNCEMENTS_FILE (some (.jobj []))
  have hl2 := load_json_state fs READ_RECEIPTS_FILE (some (.jobj []))
  by_cases he : anns = []
  · subst he
    simp [cleanup_old_announcements, hload1, hl1.2, hl2.2, pyTruthy]
  · have htr : pyTruthy (.jobj anns) = true := by
      cases anns with
      | nil => exact absurd rfl he
      | cons a t => rfl
    by_cases hg : anns.any (fun kv => !isObj kv.2) = true
    · simp [cleanup_old_announcements, hload1, hl1.2, hl2.2, htr, asObj_jobj, hg]
    · have hg' : anns.any (fun kv => !isObj kv.2) = false := by simpa using hg
      have hfilt : anns.filter (fun kv => markedForDeletion parseTs
          (now - ANNOUNCEMENT_RETENTION_DAYS * 86400) (asObj kv.2)) = [] :=
        List.filter_eq_nil_iff.mpr (fun kv hkv => by simp [hun kv hkv])
      simp [cleanup_old_announcements, hload1, hl1.2, hl2.2, htr, asObj_jobj, hg',
        hfilt, deleteMarked_nil]

/-- C8 witness: the sweeper on a store holding only a 9-day-old
announcement returns 0 with no writes and an unchanged filesystem. -/
theorem C8_sweep_no_deletion_no_write_witness :
    cleanup_old_announcements parseTsW 0 fsC8
      = ⟨0, fsC8, [.readEv ANNOUNCEMENTS_FILE, .readEv READ_RECEIPTS_FILE]⟩ :=
  C8_sweep_no_deletion_no_write parseTsW 0 fsC8
    [("new1", .jobj [("timestamp", .jstr "t-9d")])] rfl (by decide)

-- ========== CLAIM C4 ==========

/-- C4 counterexample: on a store whose announcements document contains a
record that is not a mapping (`"x": 5`) alongside an 11-day-old record,
the sweep aborts — `ann_data.get` raises `AttributeError`, uncaught by the
inner `(ValueError, TypeError)` handler — returning 0 and retaining the
11-day-old record, although that record's timestamp places it in the
claimed to-delete class (third conjunct). -/
theorem C4_counterexample_nondict_record_aborts_sweep :
    (cleanup_old_announcements parseTsW 0 fsC4x).ret = 0
    ∧ (cleanup_old_announcements parseTsW 0 fsC4x).fs ANNOUNCEMENTS_FILE
        = some (.doc (.jobj
            [("old1", .jobj [("id", .jstr "old1"), ("timestamp", .jstr "t-11d")]),
             ("x", .jint 5)]))
    ∧ markedForDeletion parseTsW (0 - ANNOUNCEMENT_RETENTION_DAYS * 86400)
        [("id", .jstr "old1"), ("timestamp", .jstr "t-11d")] = true :=
  ⟨rfl, rfl, rfl⟩

/-- C4 (amended): on every store whose announcement records are all
mappings, the sweeper deletes exactly the records whose timestamp fails to
parse or is strictly older than `now` minus the 10-day retention window,
removes the receipt entry of each deleted record (keeping all others), and
returns the number of deleted records; when any stored record is not a
mapping, the sweep aborts (the `AttributeError` of `ann_data.get` escapes
the inner handler), returning 0 after only the two loads and leaving the
filesystem untouched. -/
theorem C4_sweep_deletes_expired :
    (∀ (parseTs : String → Option Int) (now : Int) (fs : FS) (anns receipts : Obj),
      fs ANNOUNCEMENTS_FILE = some (.doc (.jobj anns)) →
      fs READ_RECEIPTS_FILE = some (.doc (.jobj receipts)) →
      (anns.map Prod.fst).Nodup →
      (∀ kv ∈ anns, isObj kv.2 = true) →
      (cleanup_old_announcements parseTs now fs).ret
        = (anns.filter (fun kv => markedForDeletion parseTs
            (now - ANNOUNCEMENT_RETENTION_DAYS * 86400) (asObj kv.2))).length
      ∧ (cleanup_old_announcements parseTs now fs).fs ANNOUNCEMENTS_FILE
        = some (.doc (.jobj (anns.filter (fun kv => !markedForDeletion parseTs
            (now - ANNOUNCEMENT_RETENTION_DAYS * 86400) (asObj kv.2)))))
      ∧ (cleanup_old_announcements parseTs now fs).fs READ_RECEIPTS_FILE
        = some (.doc (.jobj (receipts.filter (fun kv =>
            !((anns.filter (fun kv2 => markedForDeletion parseTs
                (now - ANNOUNCEMENT_RETENTION_DAYS * 86400) (asObj kv2.2))).map
                Prod.fst).contains kv.1)))))
    ∧ (∀ (parseTs : String → Option Int) (now : Int) (fs : FS) (anns : Obj),
        fs ANNOUNCEMENTS_FILE = some (.doc (.jobj anns)) →
        anns.any (fun kv => !isObj kv.2) = true →
        cleanup_old_announcements parseTs now fs
          = ⟨0, fs, [.readEv ANNOUNCEMENTS_FILE, .readEv READ_RECEIPTS_FILE]⟩) := by
  constructor
  · intro parseTs now fs anns receipts hA hR hnd hobj
    have hload1 : (load_json fs ANNOUNCEMENTS_FILE (some (.jobj []))).ret = .jobj anns := by
      simp [load_json, hA, isContainer]
    have hload2 : (load_json fs READ_RECEIPTS_FILE (some (.jobj []))).ret = .jobj receipts := by
      simp [load_json, hR, isContainer]
    have hl1 := load_json_state fs ANNOUNCEMENTS_FILE (some (.jobj []))
    have hl2 := load_json_state fs READ_RECEIPTS_FILE (some (.jobj []))
    have hg : anns.any (fun kv => !isObj kv.2) = false := by
      rw [Bool.eq_false_iff]
      intro hc
      rw [List.any_eq_true] at hc
      obtain ⟨kv, hkv, hb⟩ := hc
      rw [hobj kv hkv] at hb
      simp at hb
    by_cases hemp : anns = []
    · subst hemp
      refine ⟨?_, ?_, ?_⟩ <;>
        simp [cleanup_old_announcements, hload1, hload2, hl1.1, hl2.1, pyTruthy,
          hA, hR]
    · have htr : pyTruthy (.jobj anns) = true := by
        cases anns with
        | nil => exact absurd rfl hemp
        | cons a t => rfl
      have hmemDel : ∀ id ∈ (anns.filter (fun kv => markedForDeletion parseTs
          (now - ANNOUNCEMENT_RETENTION_DAYS * 86400) (asObj kv.2))).map Prod.fst,
          objMem anns id = true := by
        intro id hid
        obtain ⟨kv, hkv, he⟩ := List.mem_map.mp hid
        rw [← he]
        exact objMem_iff.mpr (List.mem_map_of_mem Prod.fst (List.mem_filter.mp hkv).1)
      have hndDel : ((anns.filter (fun kv => markedForDeletion parseTs
          (now - ANNOUNCEMENT_RETENTION_DAYS * 86400) (asObj kv.2))).map Prod.fst).Nodup :=
        List.Nodup.sublist (List.Sublist.map Prod.fst (List.filter_sublist anns)) hnd
      have hdel := deleteMarked_spec
        ((anns.filter (fun kv => markedForDeletion parseTs
          (now - ANNOUNCEMENT_RETENTION_DAYS * 86400) (asObj kv.2))).map Prod.fst)
        anns receipts 0 hmemDel hndDel
      have hfiltA : (anns.filter (fun kv =>
          !((anns.filter (fun kv2 => markedForDeletion parseTs
              (now - ANNOUNCEMENT_RETENTION_DAYS * 86400) (asObj kv2.2))).map
              Prod.fst).contains kv.1))
          = anns.filter (fun kv => !markedForDeletion parseTs
              (now - ANNOUNCEMENT_RETENTION_DAYS * 86400) (asObj kv.2)) := by
        apply List.filter_congr
        intro kv hkv
        rw [contains_marked_keys _ hnd hkv]
      by_cases hz : anns.filter (fun kv => markedForDeletion parseTs
          (now - ANNOUNCEMENT_RETENTION_DAYS * 86400) (asObj kv.2)) = []
      · have hall : ∀ kv ∈ anns, markedForDeletion parseTs
            (now - ANNOUNCEMENT_RETENTION_DAYS * 86400) (asObj kv.2) = false := by
          intro kv hkv
          simpa using List.filter_eq_nil_iff.mp hz kv hkv
        have hfa : anns.filter (fun kv => !markedForDeletion parseTs
            (now - ANNOUNCEMENT_RETENTION_DAYS * 86400) (asObj kv.2)) = anns :=
          List.filter_eq_self.mpr (fun kv hkv => by simp [hall kv hkv])
        refine ⟨?_, ?_, ?_⟩ <;>
          simp [cleanup_old_announcements, hload1, hload2, hl1.1, hl2.1, htr,
            asObj_jobj, hg, hz, deleteMarked_nil, hA, hR, hfa]
      · have hpos : 0 < (anns.filter (fun kv => markedForDeletion parseTs
            (now - ANNOUNCEMENT_RETENTION_DAYS * 86400) (asObj kv.2))).length :=
          List.length_pos.mpr hz
        have hne : ANNOUNCEMENTS_FILE ≠ READ_RECEIPTS_FILE := by decide
        refine ⟨?_, ?_, ?_⟩ <;>
          simp [cleanup_old_announcements, hload1, hload2, hl1.1, hl2.1, htr,
            asObj_jobj, hg, hdel, hpos, save_json, isContainer, fsWrite, hfiltA, hne,
            List.length_map]
        simpa using hfiltA
  · intro parseTs now fs anns hA hbad
    have hload1 : (load_json fs ANNOUNCEMENTS_FILE (some (.jobj []))).ret = .jobj anns := by
      simp [load_json, hA, isContainer]
    have hl1 := load_json_state fs ANNOUNCEMENTS_FILE (some (.jobj []))
    have hl2 := load_json_state fs READ_RECEIPTS_FILE (some (.jobj []))
    have htr : pyTruthy (.jobj anns) = true := by
      cases anns with
      | nil => simp [List.any_nil] at hbad
      | cons a t => rfl
    simp [cleanup_old_announcements, hload1, hl1.2, hl2.2, htr, asObj_jobj, hbad]

/-- C4 witness: the amended theorem at the concrete scenarios — on the
all-mapping store an 11-day-old announcement is deleted together with its
receipt entry, a 9-day-old one is retained with its receipt entry, and the
returned count is 1; on the store with a non-mapping record the sweep
aborts with 0 and no writes. -/
theorem C4_sweep_deletes_expired_witness :
    (cleanup_old_announcements parseTsW 0 fsC4).ret
      = (([("old1", JVal.jobj [("id", JVal.jstr "old1"), ("timestamp", JVal.jstr "t-11d")]),
          ("new1", JVal.jobj [("id", JVal.jstr "new1"), ("timestamp", JVal.jstr "t-9d")])]
         ).filter (fun kv => markedForDeletion parseTsW
            (0 - ANNOUNCEMENT_RETENTION_DAYS * 86400) (asObj kv.2))).length
    ∧ (cleanup_old_announcements parseTsW 0 fsC4).ret = 1
    ∧ (cleanup_old_announcements parseTsW 0 fsC4).fs ANNOUNCEMENTS_FILE
      = some (.doc (.jobj
          [("new1", .jobj [("id", .jstr "new1"), ("timestamp", .jstr "t-9d")])]))
    ∧ (cleanup_old_announcements parseTsW 0 fsC4).fs READ_RECEIPTS_FILE
      = some (.doc (.jobj [("new1", .jarr [.jint 6])]))
    ∧ cleanup_old_announcements parseTsW 0 fsC4x
      = ⟨0, fsC4x, [.readEv ANNOUNCEMENTS_FILE, .readEv READ_RECEIPTS_FILE]⟩ :=
  ⟨(C4_sweep_deletes_expired.1 parseTsW 0 fsC4
      [("old1", .jobj [("id", .jstr "old1"), ("timestamp", .jstr "t-11d")]),
       ("new1", .jobj [("id", .jstr "new1"), ("timestamp", .jstr "t-9d")])]
      [("old1", .jarr [.jint 5]), ("new1", .jarr [.jint 6])]
      rfl rfl (by decide) (by decide)).1,
   rfl, rfl, rfl,
   C4_sweep_deletes_expired.2 parseTsW 0 fsC4x
     [("old1", .jobj [("id", .jstr "old1"), ("timestamp", .jstr "t-11d")]),
      ("x", .jint 5)]
     rfl (by decide)⟩

end Bot
